import Mathlib

/-!
Verification of the `dude_wheres_my_message` query-and-filter pipeline
(`dude_wheres_my_message/message_finder.py`).

The Python source is shallowly embedded below.  Conventions:

* Instants are integers counting microseconds since the epoch (Python
  `datetime` has microsecond resolution); a call of
  `datetime.datetime.today()` is modelled as an explicit integer parameter,
  one parameter per call site, so the clock dependency is visible.
* Python `int(x)` truncates toward zero; it is modelled by `Int.tdiv`.
* Fallible code (`ConfigParser.get` raising `NoOptionError`, `json.loads`
  raising on malformed input) returns `Option`/`Except`.
* `re` and `json` are standard-library collaborators.  Their behaviour on
  the inputs this program feeds them is modelled by executable Lean
  functions: `compiledMatches` gives the semantics of `re.search` applied
  to the pattern string built by `pattern_regex_creator` (valid for search
  terms free of regex metacharacters and for input lines containing no
  newline character), and `decodeRecord` models `json.loads` restricted to
  flat one-line objects with unescaped string and non-negative integer
  values followed by the five field accesses the display code performs.
-/

namespace MessageFinder

/-- The character class `[DHMSdhms]` of the time-switch regex
`(\d+)([DHMSdhms])` (message_finder.py line 37). -/
def timeUnits : List Char := ['D', 'H', 'M', 'S', 'd', 'h', 'm', 's']

/-- Value of a non-empty decimal digit string, as computed by Python
`int(...)` on the digit group captured by the regex. -/
def natOfDigits (ds : List Char) : Nat :=
  ds.foldl (fun a c => 10 * a + (c.toNat - '0'.toNat)) 0

/-- The single-key keyword dictionary returned by `parse_time_switch`:
exactly one of `days`, `hours`, `minutes`, `seconds` (lines 46-53). -/
inductive TimeDict where
  | days (n : Nat)
  | hours (n : Nat)
  | minutes (n : Nat)
  | seconds (n : Nat)
deriving DecidableEq

/-- Dispatch on the lowercased unit letter (lines 46-53).  The function is
only applied to lowercased members of `timeUnits`, so the final branch is
exactly the `"s"` case of the source. -/
def mkTimeDict (u : Char) (n : Nat) : TimeDict :=
  if u = 'd' then TimeDict.days n
  else if u = 'h' then TimeDict.hours n
  else if u = 'm' then TimeDict.minutes n
  else TimeDict.seconds n

/-- Embedding of `parse_time_switch` (lines 36-53).  `re.match` of the
pattern `(\d+)([DHMSdhms])` succeeds exactly when the string begins with
one or more digits immediately followed by a unit letter (the pattern is
anchored at the start only; unit letters are not digits, so greedy
backtracking cannot rescue any other shape).  On success `re.split` with
the same pattern yields the digit group and the unit group as the first
two non-empty pieces, which the source lowercases and dispatches on.
Failure (`return False` / the unreachable fall-through) is `none`. -/
def parse_time_switch (value : String) : Option TimeDict :=
  match value.toList.dropWhile Char.isDigit with
  | c :: _ =>
    if value.toList.takeWhile Char.isDigit ≠ [] ∧ c ∈ timeUnits then
      some (mkTimeDict c.toLower (natOfDigits (value.toList.takeWhile Char.isDigit)))
    else none
  | [] => none

/-- Length in microseconds of the `datetime.timedelta(**kwargs)` built from
a parsed time dictionary (line 57). -/
def durationUs : TimeDict → Int
  | TimeDict.days n => 86400000000 * (n : Int)
  | TimeDict.hours n => 3600000000 * (n : Int)
  | TimeDict.minutes n => 60000000 * (n : Int)
  | TimeDict.seconds n => 1000000 * (n : Int)

/-- Microseconds in one unit, used to state properties about expressions
`<n><unit>`: `durationUs (mkTimeDict u n) = unitUs u * n` for lowercase
units. -/
def unitUs (u : Char) : Int :=
  if u = 'd' then 86400000000
  else if u = 'h' then 3600000000
  else if u = 'm' then 60000000
  else 1000000

/-- Embedding of `generate_timestamp` (lines 56-58):
`int((baseline - timedelta).timestamp() * 1000)`.  With the instant
`baseline` in microseconds, `.timestamp() * 1000` is the exact rational
(baseline - duration)/1000 milliseconds, and Python `int` truncates it
toward zero (`Int.tdiv`). -/
def generate_timestamp (baselineUs : Int) (kw : TimeDict) : Int :=
  Int.tdiv (baselineUs - durationUs kw) 1000

/-- One section of the `ConfigParser`, an ordered key/value association
(ConfigParser preserves insertion order and never holds duplicate keys). -/
abbrev ConfigSection := List (String × String)

/-- Embedding of `prepare_switches` (lines 85-101), restricted to the one
named section the source touches.  `configs.get(section, "bootstrap.servers")`
raises `NoOptionError` when the key is absent: modelled as `none`.
`configs[section].pop("bootstrap.servers")` mutates the caller's parser:
the mutated section is returned alongside the switch list.  The two
`datetime.datetime.today()` calls of lines 96-97 are the two explicit
clock parameters `nowBegin` and `nowEnd`. -/
def prepare_switches (configs : ConfigSection) (begin_time end_time : TimeDict)
    (topics : List String) (nowBegin nowEnd : Int) :
    Option (List String × ConfigSection) :=
  match List.lookup "bootstrap.servers" configs with
  | none => none
  | some bs =>
    let configs2 := configs.filter fun kv => kv.1 != "bootstrap.servers"
    let switches := ["-b", bs]
    let switches := configs2.foldl (fun acc kv => acc ++ ["-X", kv.1 ++ "=" ++ kv.2]) switches
    let switches := switches ++ ["-m", "10", "-e", "-C", "-J"]
    let begin_ts := generate_timestamp nowBegin begin_time
    let end_ts := generate_timestamp nowEnd end_time
    let switches := switches ++ ["-t", String.intercalate " " topics]
    let switches := switches ++ ["-o", "s@" ++ toString begin_ts]
    let switches := switches ++ ["-o", "e@" ++ toString end_ts]
    some (switches, configs2)

/-- Python substring test `needle in hay`. -/
def strContains (hay needle : String) : Bool :=
  decide (needle.toList <:+: hay.toList)

/-- Worker for `pySplit`: scan the input for the leftmost occurrence of
the (non-empty) separator, cut there, and continue after it.  The fuel
argument only bounds the recursion; callers pass more fuel than there are
input characters, so it never runs out. -/
def pySplitAux (sep : List Char) : Nat → List Char → List Char → List (List Char)
  | 0, acc, _ => [acc.reverse]
  | fuel + 1, acc, cs =>
    if sep.isPrefixOf cs then
      acc.reverse :: pySplitAux sep fuel [] (cs.drop sep.length)
    else
      match cs with
      | [] => [acc.reverse]
      | c :: r => pySplitAux sep fuel (c :: acc) r

/-- Python `s.split(sep)` for a non-empty separator: split at every
non-overlapping leftmost occurrence, keeping empty pieces. -/
def pySplit (s sep : String) : List String :=
  (pySplitAux sep.toList (s.toList.length + 1) [] s.toList).map String.mk

/-- Embedding of `pattern_regex_creator` (lines 73-82): the literal pattern
string handed to `re.search`.  The source default for `chain_op` is
`"~~"`; every use below passes it explicitly. -/
def pattern_regex_creator (switch : List String) (chain_op : String) : String :=
  let token_pattern := switch.map fun item =>
    if strContains item chain_op then
      "^" ++ String.join ((pySplit item chain_op).map fun piece => "(?=.*" ++ piece ++ ")") ++ ".*$"
    else item
  "(?:" ++ String.intercalate "|" token_pattern ++ ")"

/-- Semantics of `re.search(pattern_regex_creator(switch), line)` (library
behaviour of the `re` module on the pattern shapes the source builds),
valid when the terms contain no regex metacharacters and `line` contains
no newline character.  An empty switch list builds `"(?:)"`, the empty
regex, which matches every string.  A chained term builds
`^(?=.*A)(?=.*B)....*$`, which under `re.search` without `MULTILINE`
matches exactly when every sub-token occurs somewhere in the line.  A
plain term is one alternative matching anywhere in the line. -/
def compiledMatches (switch : List String) (line : String) : Bool :=
  match switch with
  | [] => true
  | _ :: _ =>
    switch.any fun item =>
      if strContains item "~~" then
        ((pySplit item "~~").all fun piece => strContains line piece)
      else strContains line item

/-- Opening brace character (spelled by code point). -/
def lbrace : Char := Char.ofNat 123

/-- Closing brace character (spelled by code point). -/
def rbrace : Char := Char.ofNat 125

/-- One JSON value of the flat records the external consumer emits: an
unescaped string or a non-negative integer. -/
inductive JVal where
  | str (s : String)
  | num (n : Nat)
deriving DecidableEq

/-- Parse one double-quoted string without escape sequences; returns the
content and the remaining input. -/
def parseJString : List Char → Option (String × List Char)
  | '"' :: rest =>
    match rest.dropWhile (fun c => c != '"') with
    | '"' :: r => some (String.mk (rest.takeWhile fun c => c != '"'), r)
    | _ => none
  | _ => none

/-- Parse one non-negative decimal integer; returns the value and the
remaining input. -/
def parseJNum (cs : List Char) : Option (Nat × List Char) :=
  let ds := cs.takeWhile Char.isDigit
  if ds.isEmpty then none else some (natOfDigits ds, cs.dropWhile Char.isDigit)

/-- Parse one value: a string or a number. -/
def parseJVal (cs : List Char) : Option (JVal × List Char) :=
  match cs with
  | '"' :: _ => (parseJString cs).map fun p => (JVal.str p.1, p.2)
  | _ => (parseJNum cs).map fun p => (JVal.num p.1, p.2)

/-- Parse the members of a non-empty flat object after the opening brace:
`"key":value` pairs separated by commas, consuming the closing brace.
The fuel argument bounds recursion; callers pass more fuel than there are
input characters, so fuel exhaustion never fires before the input ends. -/
def parseJMembers : Nat → List Char → Option (List (String × JVal) × List Char)
  | 0, _ => none
  | fuel + 1, cs =>
    match parseJString cs with
    | none => none
    | some (k, r1) =>
      match r1 with
      | ':' :: r2 =>
        match parseJVal r2 with
        | none => none
        | some (v, r3) =>
          match r3 with
          | c :: r4 =>
            if c = ',' then
              match parseJMembers fuel r4 with
              | none => none
              | some (ms, r5) => some ((k, v) :: ms, r5)
            else if c = rbrace then some ([(k, v)], r4)
            else none
          | [] => none
      | _ => none

/-- Model of `json.loads` (line 106) restricted to the whitespace-free flat
objects this development feeds it: a whole-line object with string keys and
string-or-integer values.  Any other input is a decode failure (`none`),
as `json.loads` raises on such lines. -/
def parseJsonFlat (cs : List Char) : Option (List (String × JVal)) :=
  match cs with
  | c :: r =>
    if c = lbrace then
      match r with
      | c2 :: r2 =>
        if c2 = rbrace then (if r2.isEmpty then some [] else none)
        else
          match parseJMembers (r.length + 1) r with
          | some (ms, rest) => if rest.isEmpty then some ms else none
          | none => none
      | [] => none
    else none
  | [] => none

/-- The decoded structured record used by the display code (line 109):
the five fields `data["topic"]`, `data["partition"]`, `data["offset"]`,
`data["ts"]`, `data["payload"]`. -/
structure KRecord where
  topic : JVal
  part : JVal
  offset : JVal
  ts : JVal
  payload : JVal
deriving DecidableEq

/-- `json.loads` on the line followed by the five field accesses the
`print` call performs; a failure of either (malformed line, non-object
line, or missing field) is the propagated exception, `none`. -/
def decodeRecord (line : String) : Option KRecord :=
  match parseJsonFlat line.toList with
  | none => none
  | some ms =>
    match List.lookup "topic" ms, List.lookup "partition" ms, List.lookup "offset" ms,
        List.lookup "ts" ms, List.lookup "payload" ms with
    | some t, some p, some o, some s, some pl => some ⟨t, p, o, s, pl⟩
    | _, _, _, _, _ => none

/-- Embedding of `search_and_display` (lines 104-111) for one line, with
the default case-sensitive match switches: if the raw line matches the
compiled pattern, decode it and emit the record (`ok (some r)`); a decode
failure on a matching line is a raised exception (`error`); a
non-matching line is discarded, nothing decoded, nothing emitted
(`ok none`). -/
def search_and_display (input_line : String) (match_switch : List String) :
    Except Unit (Option KRecord) :=
  if compiledMatches match_switch input_line then
    match decodeRecord input_line with
    | some r => Except.ok (some r)
    | none => Except.error ()
  else Except.ok none

/-- The driving loop of `__main__` (lines 206-207): feed each streamed
line to `search_and_display` in order.  Returns the emitted records in
emission order, paired with `true` when an uncaught decode exception
aborted the remaining stream (lines after the failing one are never
processed). -/
def runPipeline (lines : List String) (match_switch : List String) :
    List KRecord × Bool :=
  match lines with
  | [] => ([], false)
  | l :: ls =>
    match search_and_display l match_switch with
    | Except.ok none => runPipeline ls match_switch
    | Except.ok (some r) =>
      let rest := runPipeline ls match_switch
      (r :: rest.1, rest.2)
    | Except.error _ => ([], true)

/-- The externally spawned consumer process as seen through its pipe: the
lines it writes to stdout before closing it, and its exit status. -/
structure ChildProcess where
  outLines : List String
  exitCode : Int

/-- Embedding of `stream_subcommand` (lines 18-25): yield each stdout line
until EOF.  The `with Popen(...)` block then only waits for the process
and closes the pipes; nothing in the source ever reads `returncode`, and
stderr is sent to `DEVNULL`, so the generator's observable output is the
line sequence alone, whatever the exit status. -/
def stream_subcommand (proc : ChildProcess) : List String :=
  proc.outLines

/-- Everything a run of the `__main__` streaming loop can surface to the
operator: the emitted rows, whether a decode failure aborted the stream,
and any warning about the child's exit status. -/
structure RunResult where
  rows : List KRecord
  decodeAborted : Bool
  exitWarning : Option Int
deriving DecidableEq

/-- The full streaming run of `__main__` over one child process (lines
204-207).  `exitWarning` is `none` unconditionally because no code path
of the source inspects the child's exit status after stream end. -/
def mainRun (proc : ChildProcess) (match_switch : List String) : RunResult :=
  let p := runPipeline (stream_subcommand proc) match_switch
  { rows := p.1, decodeAborted := p.2, exitWarning := none }

/-! Helper lemmas about the time-expression parser. -/

/-- Unit letters are not decimal digits. -/
theorem unit_not_digit {c : Char} (h : c ∈ timeUnits) : c.isDigit = false := by
  simp only [timeUnits, List.mem_cons, List.not_mem_nil, or_false] at h
  rcases h with rfl | rfl | rfl | rfl | rfl | rfl | rfl | rfl <;> decide

/-- Splitting a string that starts with digits followed by a unit letter. -/
theorem takeWhile_digits_split {ds : List Char} {c : Char} (rest : List Char)
    (hdig : ∀ x ∈ ds, x.isDigit = true) (hcd : c.isDigit = false) :
    (ds ++ c :: rest).takeWhile Char.isDigit = ds ∧
      (ds ++ c :: rest).dropWhile Char.isDigit = c :: rest := by
  constructor
  · rw [List.takeWhile_append_of_pos hdig,
      List.takeWhile_cons_of_neg (by simp [hcd]), List.append_nil]
  · rw [List.dropWhile_append_of_pos hdig,
      List.dropWhile_cons_of_neg (by simp [hcd])]

/-- `parse_time_switch` on a string made of digits, a unit letter, and an
arbitrary tail. -/
theorem parse_time_switch_digits_unit (ds : List Char) (c : Char) (rest : List Char)
    (hne : ds ≠ []) (hdig : ∀ x ∈ ds, x.isDigit = true) (hu : c ∈ timeUnits) :
    parse_time_switch (String.mk (ds ++ c :: rest)) =
      some (mkTimeDict c.toLower (natOfDigits ds)) := by
  have htl : (String.mk (ds ++ c :: rest)).toList = ds ++ c :: rest := rfl
  obtain ⟨h1, h2⟩ := takeWhile_digits_split rest hdig (unit_not_digit hu)
  unfold parse_time_switch
  rw [htl, h1, h2]
  simp [hne, hu]

/-- C1, counterexample: the time-expression grammar is not anchored at the
end.  The claim says every string with trailing characters after the unit
letter fails with a parse error, but `"1dxyz"` parses successfully to one
day because `re.match` of `(\d+)([DHMSdhms])` only anchors the start and
the extra split pieces after the unit group are ignored. -/
theorem C1_counterexample_trailing_characters_accepted :
    parse_time_switch "1dxyz" = some (TimeDict.days 1) := by decide

/-- C1 (amended): time-expression parsing accepts exactly the strings that
begin with one or more digits immediately followed by a unit letter from
`[DHMSdhms]`; everything after that prefix is ignored rather than
rejected.  Strings not of that prefix shape (wrong unit letter, missing
digits, negative numbers, the empty string) fail and never produce a
timestamp. -/
theorem C1_time_parse_accepts_exactly_digit_unit_shape :
    (∀ value : String,
      (parse_time_switch value).isSome = true ↔
        ∃ ds c rest, value.toList = ds ++ c :: rest ∧ ds ≠ [] ∧
          (∀ x ∈ ds, x.isDigit = true) ∧ c ∈ timeUnits) ∧
    parse_time_switch "" = none ∧ parse_time_switch "d" = none ∧
    parse_time_switch "-1d" = none ∧ parse_time_switch "1x" = none := by
  refine ⟨fun value => ⟨?_, ?_⟩, by decide, by decide, by decide, by decide⟩
  · intro h
    unfold parse_time_switch at h
    cases hdw : value.toList.dropWhile Char.isDigit with
    | nil => rw [hdw] at h; simp at h
    | cons c t =>
      rw [hdw] at h
      by_cases hcond : value.toList.takeWhile Char.isDigit ≠ [] ∧ c ∈ timeUnits
      · refine ⟨value.toList.takeWhile Char.isDigit, c, t, ?_, hcond.1, ?_, hcond.2⟩
        · conv_lhs => rw [← List.takeWhile_append_dropWhile Char.isDigit value.toList]
          rw [hdw]
        · intro x hx
          exact List.mem_takeWhile_imp hx
      · simp only [if_neg hcond, Option.isSome_none] at h
        cases h
  · rintro ⟨ds, c, rest, hval, hne, hdig, hu⟩
    have hv : value = String.mk (ds ++ c :: rest) := by
      cases value with
    | mk data => exact congrArg String.mk hval
    rw [hv, parse_time_switch_digits_unit ds c rest hne hdig hu]
    rfl

/-- C1, witness: `"42m"` decomposes as digits, unit letter, empty tail,
so the parser accepts it. -/
theorem C1_time_parse_witness : (parse_time_switch "42m").isSome = true :=
  (C1_time_parse_accepts_exactly_digit_unit_shape.1 "42m").mpr
    ⟨['4', '2'], 'm', [], rfl, by decide, by decide, by decide⟩

/-! Helper lemmas about timestamp arithmetic. -/

/-- For a non-negative numerator, Python truncation agrees with the floor
and brackets the exact value to within one millisecond. -/
theorem tdiv_1000_spec (a : Int) (h : 0 ≤ a) :
    Int.tdiv a 1000 = Int.fdiv a 1000 ∧
      1000 * Int.tdiv a 1000 ≤ a ∧ a < 1000 * Int.tdiv a 1000 + 1000 := by
  have h1 : Int.tdiv a 1000 = a / 1000 := Int.tdiv_eq_ediv h (by norm_num)
  have h2 : Int.fdiv a 1000 = a / 1000 := Int.fdiv_eq_ediv a (by norm_num)
  rw [h1, h2]
  omega

/-- Lowercase unit letters belong to the regex character class. -/
theorem lower_unit_mem_timeUnits {u : Char} (hu : u ∈ ['d', 'h', 'm', 's']) :
    u ∈ timeUnits := by
  have hc : u = 'd' ∨ u = 'h' ∨ u = 'm' ∨ u = 's' := by simpa using hu
  rcases hc with rfl | rfl | rfl | rfl <;> decide

/-- Lowercase unit letters are fixed by `Char.toLower`. -/
theorem toLower_lower_unit {u : Char} (hu : u ∈ ['d', 'h', 'm', 's']) :
    u.toLower = u := by
  have hc : u = 'd' ∨ u = 'h' ∨ u = 'm' ∨ u = 's' := by simpa using hu
  rcases hc with rfl | rfl | rfl | rfl <;> rfl

/-- The duration of `n` lowercase units, in microseconds. -/
theorem durationUs_mkTimeDict (u : Char) (n : Nat) (hu : u ∈ ['d', 'h', 'm', 's']) :
    durationUs (mkTimeDict u n) = unitUs u * (n : Int) := by
  have hc : u = 'd' ∨ u = 'h' ∨ u = 'm' ∨ u = 's' := by simpa using hu
  rcases hc with rfl | rfl | rfl | rfl <;> rfl

/-- Every duration the parser can produce is a whole number of
milliseconds (indeed of seconds), in microseconds. -/
theorem durationUs_dvd_1000 (td : TimeDict) : ∃ k : Int, durationUs td = 1000 * k := by
  cases td with
  | days n =>
    exact ⟨86400000 * (n : Int), by show (86400000000 : Int) * n = 1000 * (86400000 * n); ring⟩
  | hours n =>
    exact ⟨3600000 * (n : Int), by show (3600000000 : Int) * n = 1000 * (3600000 * n); ring⟩
  | minutes n =>
    exact ⟨60000 * (n : Int), by show (60000000 : Int) * n = 1000 * (60000 * n); ring⟩
  | seconds n =>
    exact ⟨1000 * (n : Int), by show (1000000 : Int) * n = 1000 * (1000 * n); ring⟩

/-- C5, counterexample: the claim demands the floor of the exact
millisecond value for every baseline instant, but Python `int(...)`
truncates toward zero.  At the instant 500 microseconds after the epoch,
resolving `"1s"` lands before the epoch: the code yields -999 while the
floor is -1000. -/
theorem C5_counterexample_pre_epoch_truncation :
    parse_time_switch "1s" = some (TimeDict.seconds 1) ∧
    generate_timestamp 500 (TimeDict.seconds 1) = -999 ∧
    Int.fdiv (500 - 1000000) 1000 = -1000 ∧
    (-999 : Int) ≠ -1000 :=
  ⟨by decide, by decide, by decide, by decide⟩

/-- C5 (amended): for every valid expression `<n><unit>` with a lowercase
unit in d/h/m/s, resolution parses the expression and returns the exact
number of microseconds between the shifted instant and the epoch, divided
by 1000 and truncated toward zero.  Whenever the shifted instant
`baseline - duration` is at or after the epoch this truncation equals the
claimed floor, and the result brackets the exact value with no error
beyond millisecond truncation. -/
theorem C5_resolve_millisecond_truncation (ds : List Char) (u : Char) (b : Int)
    (hne : ds ≠ []) (hdig : ∀ x ∈ ds, x.isDigit = true)
    (hu : u ∈ ['d', 'h', 'm', 's'])
    (hb : 0 ≤ b - unitUs u * (natOfDigits ds : Int)) :
    parse_time_switch (String.mk (ds ++ [u])) = some (mkTimeDict u (natOfDigits ds)) ∧
    generate_timestamp b (mkTimeDict u (natOfDigits ds)) =
      Int.fdiv (b - unitUs u * (natOfDigits ds : Int)) 1000 ∧
    1000 * generate_timestamp b (mkTimeDict u (natOfDigits ds)) ≤
      b - unitUs u * (natOfDigits ds : Int) ∧
    b - unitUs u * (natOfDigits ds : Int) <
      1000 * generate_timestamp b (mkTimeDict u (natOfDigits ds)) + 1000 := by
  have hparse := parse_time_switch_digits_unit ds u [] hne hdig (lower_unit_mem_timeUnits hu)
  rw [toLower_lower_unit hu] at hparse
  have hdur := durationUs_mkTimeDict u (natOfDigits ds) hu
  obtain ⟨e1, e2, e3⟩ := tdiv_1000_spec (b - unitUs u * (natOfDigits ds : Int)) hb
  have hg : generate_timestamp b (mkTimeDict u (natOfDigits ds)) =
      Int.tdiv (b - unitUs u * (natOfDigits ds : Int)) 1000 := by
    simp only [generate_timestamp, hdur]
  exact ⟨hparse, by rw [hg]; exact e1, by rw [hg]; exact e2, by rw [hg]; exact e3⟩

/-- C5, witness: resolving `"3h"` against the instant 1.5 milliseconds
after three hours past the epoch. -/
theorem C5_resolve_witness :
    parse_time_switch (String.mk (['3'] ++ ['h'])) =
      some (mkTimeDict 'h' (natOfDigits ['3'])) ∧
    generate_timestamp 10800001500 (mkTimeDict 'h' (natOfDigits ['3'])) =
      Int.fdiv (10800001500 - unitUs 'h' * (natOfDigits ['3'] : Int)) 1000 ∧
    1000 * generate_timestamp 10800001500 (mkTimeDict 'h' (natOfDigits ['3'])) ≤
      10800001500 - unitUs 'h' * (natOfDigits ['3'] : Int) ∧
    10800001500 - unitUs 'h' * (natOfDigits ['3'] : Int) <
      1000 * generate_timestamp 10800001500 (mkTimeDict 'h' (natOfDigits ['3'])) + 1000 :=
  C5_resolve_millisecond_truncation ['3'] 'h' 10800001500 (by decide) (by decide)
    (by decide) (by decide)

/-- C4, counterexample: the two boundaries are not resolved against one
shared baseline; `prepare_switches` reads the clock once per boundary
(lines 96-97).  With the two reads one second apart and both relative
expressions equal to zero seconds, the built directives are `s@0` and
`e@1000`: their difference is 1000 milliseconds while the difference of
the two parsed durations is 0. -/
theorem C4_counterexample_two_clock_reads :
    prepare_switches [("bootstrap.servers", "h:9")] (TimeDict.seconds 0)
        (TimeDict.seconds 0) ["t1"] 0 1000000 =
      some (["-b", "h:9", "-m", "10", "-e", "-C", "-J", "-t", "t1",
        "-o", "s@0", "-o", "e@1000"], []) ∧
    generate_timestamp 1000000 (TimeDict.seconds 0) -
        generate_timestamp 0 (TimeDict.seconds 0) = 1000 ∧
    durationUs (TimeDict.seconds 0) - durationUs (TimeDict.seconds 0) = 0 ∧
    (1000 : Int) ≠ 0 :=
  ⟨by decide, by decide, by decide, by decide⟩

/-- C4 (amended): each boundary is resolved against its own clock reading;
when the two readings coincide and both resolved instants are at or after
the epoch, the window is internally consistent: the difference of the two
resolved millisecond timestamps equals exactly the difference of the two
parsed durations. -/
theorem C4_same_baseline_window_consistent (b : Int) (bt et : TimeDict)
    (h1 : 0 ≤ b - durationUs bt) (h2 : 0 ≤ b - durationUs et) :
    1000 * (generate_timestamp b bt - generate_timestamp b et) =
      durationUs et - durationUs bt := by
  obtain ⟨k1, hk1⟩ := durationUs_dvd_1000 bt
  obtain ⟨k2, hk2⟩ := durationUs_dvd_1000 et
  have e1 : generate_timestamp b bt = (b - durationUs bt) / 1000 :=
    Int.tdiv_eq_ediv h1 (by norm_num)
  have e2 : generate_timestamp b et = (b - durationUs et) / 1000 :=
    Int.tdiv_eq_ediv h2 (by norm_num)
  rw [e1, e2, hk1, hk2]
  omega

/-- C4, witness: one shared baseline two seconds after the epoch, begin
expression one second, end expression zero seconds. -/
theorem C4_window_witness :
    1000 * (generate_timestamp 2000000 (TimeDict.seconds 1) -
        generate_timestamp 2000000 (TimeDict.seconds 0)) =
      durationUs (TimeDict.seconds 0) - durationUs (TimeDict.seconds 1) :=
  C4_same_baseline_window_consistent 2000000 (TimeDict.seconds 1)
    (TimeDict.seconds 0) (by decide) (by decide)

/-- Looking a key up after filtering it out always fails. -/
theorem lookup_filter_ne_key (k : String) (l : ConfigSection) :
    List.lookup k (l.filter fun kv => kv.1 != k) = none := by
  induction l with
  | nil => rfl
  | cons hd tl ih =>
    by_cases h : hd.1 = k
    · simp [List.filter_cons, h, ih]
    · have hbe : (k == hd.1) = false := beq_eq_false_iff_ne.mpr (Ne.symm h)
      simp [List.filter_cons, List.lookup, h, hbe, ih]

/-- C2, counterexample: the consumer-argument builder does not take
already-resolved absolute timestamps as inputs; it takes the parsed
relative durations and reads the clock itself (lines 96-97).  Holding
every input of the claim fixed (the config section, the parsed begin and
end expressions, the topics), two runs whose internal clock reads differ
produce different invocations with different time-boundary directives, so
no directive encodes a caller-supplied timestamp. -/
theorem C2_counterexample_builder_reads_clock :
    prepare_switches [("bootstrap.servers", "host:9092"), ("group.id", "g1")]
        (TimeDict.seconds 1) (TimeDict.seconds 1) ["t1", "t2"] 2000000 3000000 =
      some (["-b", "host:9092", "-X", "group.id=g1", "-m", "10", "-e", "-C", "-J",
        "-t", "t1 t2", "-o", "s@1000", "-o", "e@2000"], [("group.id", "g1")]) ∧
    prepare_switches [("bootstrap.servers", "host:9092"), ("group.id", "g1")]
        (TimeDict.seconds 1) (TimeDict.seconds 1) ["t1", "t2"] 4000000 5000000 =
      some (["-b", "host:9092", "-X", "group.id=g1", "-m", "10", "-e", "-C", "-J",
        "-t", "t1 t2", "-o", "s@3000", "-o", "e@4000"], [("group.id", "g1")]) ∧
    ("s@1000" : String) ≠ "s@3000" :=
  ⟨by decide, by decide, by decide⟩

/-- C2 (amended): the builder takes the parsed relative durations and
resolves them internally against its own clock reads.  For the config
section with bootstrap.servers host:9092 and group.id g1, topics t1 and
t2, and any durations and clock reads under which the internal
resolutions yield 1000 and 2000, the built invocation contains the broker
address exactly once, the passthrough option group.id=g1, the single
topic argument "t1 t2", and the two distinct time-boundary directives
s@1000 and e@2000. -/
theorem C2_builder_invocation_contents (bt et : TimeDict) (n1 n2 : Int)
    (h1 : generate_timestamp n1 bt = 1000) (h2 : generate_timestamp n2 et = 2000) :
    ∃ sw, prepare_switches [("bootstrap.servers", "host:9092"), ("group.id", "g1")]
          bt et ["t1", "t2"] n1 n2 = some (sw, [("group.id", "g1")]) ∧
      sw = ["-b", "host:9092", "-X", "group.id=g1", "-m", "10", "-e", "-C", "-J",
        "-t", "t1 t2", "-o", "s@1000", "-o", "e@2000"] ∧
      sw.count "host:9092" = 1 ∧ "group.id=g1" ∈ sw ∧ "t1 t2" ∈ sw ∧
      "s@1000" ∈ sw ∧ "e@2000" ∈ sw ∧ ("s@1000" : String) ≠ "e@2000" := by
  have e0 : prepare_switches [("bootstrap.servers", "host:9092"), ("group.id", "g1")]
      bt et ["t1", "t2"] n1 n2 =
      some (["-b", "host:9092", "-X", "group.id=g1", "-m", "10", "-e", "-C", "-J",
        "-t", "t1 t2", "-o", "s@" ++ toString (generate_timestamp n1 bt),
        "-o", "e@" ++ toString (generate_timestamp n2 et)], [("group.id", "g1")]) := rfl
  rw [h1, h2] at e0
  have hs : "s@" ++ toString (1000 : Int) = "s@1000" := rfl
  have he : "e@" ++ toString (2000 : Int) = "e@2000" := rfl
  rw [hs, he] at e0
  exact ⟨_, e0, rfl, by decide, by decide, by decide, by decide, by decide, by decide⟩

/-- C2, witness: both durations one second, clock reads two and three
seconds after the epoch. -/
theorem C2_builder_witness :
    ∃ sw, prepare_switches [("bootstrap.servers", "host:9092"), ("group.id", "g1")]
          (TimeDict.seconds 1) (TimeDict.seconds 1) ["t1", "t2"] 2000000 3000000 =
        some (sw, [("group.id", "g1")]) ∧
      sw = ["-b", "host:9092", "-X", "group.id=g1", "-m", "10", "-e", "-C", "-J",
        "-t", "t1 t2", "-o", "s@1000", "-o", "e@2000"] ∧
      sw.count "host:9092" = 1 ∧ "group.id=g1" ∈ sw ∧ "t1 t2" ∈ sw ∧
      "s@1000" ∈ sw ∧ "e@2000" ∈ sw ∧ ("s@1000" : String) ≠ "e@2000" :=
  C2_builder_invocation_contents (TimeDict.seconds 1) (TimeDict.seconds 1)
    2000000 3000000 (by decide) (by decide)

/-- C10 (confirmed): building the argument list removes the
bootstrap.servers key from the caller's config section, so a second call
on the shared, already-mutated section fails (the `configs.get` of line
86 raises `NoOptionError`) instead of rebuilding the invocation. -/
theorem C10_builder_mutates_shared_config (cfg : ConfigSection) (v : String)
    (bt et bt2 et2 : TimeDict) (tp tp2 : List String) (n1 n2 n3 n4 : Int)
    (h : List.lookup "bootstrap.servers" cfg = some v) :
    ∃ sw, prepare_switches cfg bt et tp n1 n2 =
        some (sw, cfg.filter fun kv => kv.1 != "bootstrap.servers") ∧
      List.lookup "bootstrap.servers"
        (cfg.filter fun kv => kv.1 != "bootstrap.servers") = none ∧
      prepare_switches (cfg.filter fun kv => kv.1 != "bootstrap.servers")
        bt2 et2 tp2 n3 n4 = none := by
  unfold prepare_switches
  rw [h, lookup_filter_ne_key _ cfg]
  exact ⟨_, rfl, rfl, rfl⟩

/-- C10, witness: the mutation observed on a concrete two-key section. -/
theorem C10_builder_mutation_witness :
    ∃ sw, prepare_switches [("bootstrap.servers", "host:9092"), ("group.id", "g1")]
          (TimeDict.seconds 0) (TimeDict.seconds 0) ["t1"] 0 0 =
        some (sw, [("bootstrap.servers", "host:9092"), ("group.id", "g1")].filter
          fun kv => kv.1 != "bootstrap.servers") ∧
      List.lookup "bootstrap.servers"
        ([("bootstrap.servers", "host:9092"), ("group.id", "g1")].filter
          fun kv => kv.1 != "bootstrap.servers") = none ∧
      prepare_switches ([("bootstrap.servers", "host:9092"), ("group.id", "g1")].filter
          fun kv => kv.1 != "bootstrap.servers")
        (TimeDict.seconds 0) (TimeDict.seconds 0) ["t1"] 0 0 = none :=
  C10_builder_mutates_shared_config
    [("bootstrap.servers", "host:9092"), ("group.id", "g1")] "host:9092"
    (TimeDict.seconds 0) (TimeDict.seconds 0) (TimeDict.seconds 0) (TimeDict.seconds 0)
    ["t1"] ["t1"] 0 0 0 0 (by decide)

/-- C6 (confirmed): a term containing the chain delimiter compiles to the
anchored look-ahead conjunction, and the compiled pattern matches a line
exactly when every sub-token occurs somewhere in it: a line containing
both foo and bar (in either order) matches, a line containing only one of
them does not.  The newline hypothesis marks the domain on which
`compiledMatches` models `re.search` (a streamed line body). -/
theorem C6_chain_term_conjunction (line : String) (hnl : '\n' ∉ line.toList) :
    pattern_regex_creator ["foo~~bar"] "~~" = "(?:^(?=.*foo)(?=.*bar).*$)" ∧
    (compiledMatches ["foo~~bar"] line = true ↔
      ("foo".toList <:+: line.toList ∧ "bar".toList <:+: line.toList)) := by
  refine ⟨by decide, ?_⟩
  rw [show compiledMatches ["foo~~bar"] line =
      ((decide ("foo".toList <:+: line.toList) &&
        (decide ("bar".toList <:+: line.toList) && true)) || false) from rfl]
  simp

/-- C6, witness: a line holding bar before foo matches the chained term. -/
theorem C6_chain_witness :
    pattern_regex_creator ["foo~~bar"] "~~" = "(?:^(?=.*foo)(?=.*bar).*$)" ∧
    (compiledMatches ["foo~~bar"] "xbarfooy" = true ↔
      ("foo".toList <:+: "xbarfooy".toList ∧ "bar".toList <:+: "xbarfooy".toList)) :=
  C6_chain_term_conjunction "xbarfooy" (by decide)

/-- C7 (confirmed): an empty term list compiles to the empty alternation
`"(?:)"`, the empty regular expression, whose search matches every
non-empty line; in particular the line consisting of a one-field JSON
object matches. -/
theorem C7_empty_terms_match_all :
    pattern_regex_creator [] "~~" = "(?:)" ∧
    (∀ line : String, line ≠ "" → compiledMatches [] line = true) ∧
    compiledMatches [] "\x7b\"topic\":\"x\"\x7d" = true :=
  ⟨rfl, fun _ _ => rfl, rfl⟩

/-- C7, witness: a concrete non-empty line matches the empty-term
pattern. -/
theorem C7_empty_terms_witness : compiledMatches [] "a" = true :=
  C7_empty_terms_match_all.2.1 "a" (by decide)

/-- C3, counterexample: a malformed line that does not match the compiled
pattern is skipped silently, never decoded, and does not abort the
stream, because `search_and_display` (lines 104-106) calls `json.loads`
only after the pattern has matched.  The claim that every malformed line
propagates a decode failure is therefore false. -/
theorem C3_counterexample_nonmatching_malformed_skipped :
    decodeRecord "oops" = none ∧
    compiledMatches ["zzz"] "oops" = false ∧
    runPipeline ["oops"] ["zzz"] = ([], false) :=
  ⟨by decide, by decide, by decide⟩

/-- C3 (amended): only lines that match the compiled pattern are decoded.
A matching line that fails to decode propagates the failure and aborts
the remaining stream (strict policy, nothing emitted for it); a
non-matching line — well-formed or malformed — is discarded without
being decoded at all. -/
theorem C3_decode_only_matching_lines (l : String) (ls : List String)
    (sw : List String) :
    (compiledMatches sw l = true → decodeRecord l = none →
      runPipeline (l :: ls) sw = ([], true)) ∧
    (compiledMatches sw l = false →
      runPipeline (l :: ls) sw = runPipeline ls sw) := by
  constructor
  · intro hm hd
    simp [runPipeline, search_and_display, hm, hd]
  · intro hm
    simp [runPipeline, search_and_display, hm]

/-- C3, witness: a malformed line matching the match-everything pattern
aborts the stream before the following line is processed. -/
theorem C3_decode_witness : runPipeline ["\x7bbad", "x"] [""] = ([], true) :=
  (C3_decode_only_matching_lines "\x7bbad" ["x"] [""]).1 (by decide) (by decide)

/-- Mapping a partial decode over elements on which it succeeds preserves
the length. -/
theorem filterMap_length_of_isSome {α β : Type} (f : α → Option β) (l : List α)
    (h : ∀ x ∈ l, (f x).isSome = true) : (l.filterMap f).length = l.length := by
  induction l with
  | nil => rfl
  | cons hd tl ih =>
    obtain ⟨b, hb⟩ := Option.isSome_iff_exists.mp (h hd (List.mem_cons_self hd tl))
    rw [List.filterMap_cons, hb]
    simp [ih fun x hx => h x (List.mem_cons_of_mem hd hx)]

/-- The streaming loop over decodable lines: emitted records are exactly
the decoded matching lines, in input order, and nothing aborts. -/
theorem runPipeline_all_decodable (sw : List String) :
    ∀ lines : List String, (∀ l ∈ lines, (decodeRecord l).isSome = true) →
      runPipeline lines sw =
        ((lines.filter fun l => compiledMatches sw l).filterMap decodeRecord, false)
  | [], _ => rfl
  | hd :: tl, h => by
    have htl := runPipeline_all_decodable sw tl fun x hx =>
      h x (List.mem_cons_of_mem hd hx)
    obtain ⟨r, hr⟩ := Option.isSome_iff_exists.mp (h hd (List.mem_cons_self hd tl))
    by_cases hm : compiledMatches sw hd = true
    · simp [runPipeline, search_and_display, hm, hr, List.filter_cons,
        List.filterMap_cons, htl]
    · have hm2 : compiledMatches sw hd = false := by simpa using hm
      simp [runPipeline, search_and_display, hm2, List.filter_cons, htl]

/-- C8 (confirmed): for a finite stream whose lines all decode as
structured records, the pipeline emits exactly the records of the
matching lines, in the same relative order as they appeared in the input
(the loop of lines 206-207 consumes one line at a time); non-matching
lines produce no output and no effect, and the row count equals the
match count. -/
theorem C8_streaming_emits_matches_in_order (lines : List String)
    (sw : List String) (h : ∀ l ∈ lines, (decodeRecord l).isSome = true) :
    runPipeline lines sw =
      ((lines.filter fun l => compiledMatches sw l).filterMap decodeRecord, false) ∧
    (runPipeline lines sw).1.length =
      (lines.filter fun l => compiledMatches sw l).length := by
  have main := runPipeline_all_decodable sw lines h
  refine ⟨main, ?_⟩
  rw [main]
  exact filterMap_length_of_isSome decodeRecord _ fun x hx =>
    h x (List.mem_filter.mp hx).1

/-- C8, witness: two well-formed record lines of which exactly the first
matches the pattern. -/
theorem C8_streaming_witness :
    runPipeline
        ["\x7b\"topic\":\"t1\",\"partition\":0,\"offset\":7,\"ts\":5,\"payload\":\"hello\"\x7d",
          "\x7b\"topic\":\"zz\",\"partition\":1,\"offset\":8,\"ts\":6,\"payload\":\"world\"\x7d"]
        ["t1"] =
      ((["\x7b\"topic\":\"t1\",\"partition\":0,\"offset\":7,\"ts\":5,\"payload\":\"hello\"\x7d",
          "\x7b\"topic\":\"zz\",\"partition\":1,\"offset\":8,\"ts\":6,\"payload\":\"world\"\x7d"].filter
            fun l => compiledMatches ["t1"] l).filterMap decodeRecord, false) ∧
    (runPipeline
        ["\x7b\"topic\":\"t1\",\"partition\":0,\"offset\":7,\"ts\":5,\"payload\":\"hello\"\x7d",
          "\x7b\"topic\":\"zz\",\"partition\":1,\"offset\":8,\"ts\":6,\"payload\":\"world\"\x7d"]
        ["t1"]).1.length =
      (["\x7b\"topic\":\"t1\",\"partition\":0,\"offset\":7,\"ts\":5,\"payload\":\"hello\"\x7d",
          "\x7b\"topic\":\"zz\",\"partition\":1,\"offset\":8,\"ts\":6,\"payload\":\"world\"\x7d"].filter
            fun l => compiledMatches ["t1"] l).length :=
  C8_streaming_emits_matches_in_order
    ["\x7b\"topic\":\"t1\",\"partition\":0,\"offset\":7,\"ts\":5,\"payload\":\"hello\"\x7d",
      "\x7b\"topic\":\"zz\",\"partition\":1,\"offset\":8,\"ts\":6,\"payload\":\"world\"\x7d"]
    ["t1"] (by decide)

/-- C9, counterexample: a non-zero exit status of the child process is
never surfaced.  The `with Popen(...)` block of `stream_subcommand`
(lines 22-25) only waits for the process; no code path reads its return
code (and stderr is sent to `DEVNULL`), so a run with exit status 7
produces no warning and is indistinguishable from a clean run. -/
theorem C9_counterexample_exit_status_swallowed :
    (mainRun ⟨["x"], 7⟩ []).exitWarning = none ∧
    mainRun ⟨["x"], 7⟩ [] = mainRun ⟨["x"], 0⟩ [] ∧
    (7 : Int) ≠ 0 :=
  ⟨rfl, rfl, by decide⟩

/-- C9 (amended): after the stream ends the child's exit status is
ignored entirely: no warning is raised, the run result does not depend on
the exit code, and the rows already emitted remain delivered. -/
theorem C9_exit_status_never_surfaced (lines : List String) (c : Int)
    (sw : List String) :
    (mainRun ⟨lines, c⟩ sw).exitWarning = none ∧
    mainRun ⟨lines, c⟩ sw = mainRun ⟨lines, 0⟩ sw ∧
    (mainRun ⟨lines, c⟩ sw).rows = (runPipeline (stream_subcommand ⟨lines, c⟩) sw).1 :=
  ⟨rfl, rfl, rfl⟩

end MessageFinder
